import Mathlib

/-!
Verification of the statefolio state-store contract against the
repository's store implementations.

The repository renders one counter/todo-list UI against several
state-management libraries.  The state logic embedded here is taken from:

* `src/app/context.tsx` — a `useReducer` store (`reducer`);
* `src/app/zustand.tsx` — a zustand store (`increment`, `decrement`,
  `addTodo`, `removeTodo` written with `set`);
* `src/app/mobx.tsx` — a MobX class `Store` with the same four actions;
* `docs` guide variant (`src/store/context/store.ts` inside the Context API
  implementation guide) — a reducer whose `REMOVE_TODO` removes by
  positional index and whose todo items are plain strings;
* `src/components/BaseScreen.tsx` — the add-button handler that gates
  `onAddTodo` on `newTodo.trim()`.

JavaScript's `Date.now()` appears in the stores as the id generator for new
todos.  It is modelled as an explicit natural-number argument `now` passed
to the transition: the embedded functions are pure, and the clock value
used at each call is whatever `Date.now()` returned there.
-/

/-- A todo entry, `interface Todo { id: string; text: string }`. -/
structure Todo where
  id : String
  text : String
deriving DecidableEq, Repr

/-- The state shape `{ count: number; todos: Todo[] }` shared by the
context, zustand and MobX variants. -/
structure AppState where
  count : Int
  todos : List Todo
deriving DecidableEq, Repr

/-- The initial state `{ count: 0, todos: [] }`. -/
def initialState : AppState := { count := 0, todos := [] }

/-- `Date.now().toString()`: the id assigned to a todo created when the
clock reads `now`. -/
def freshId (now : Nat) : String := toString now

namespace Context

/-- The action type of `src/app/context.tsx`. -/
inductive Action where
  | increment
  | decrement
  | addTodo (text : String)
  | removeTodo (id : String)
deriving DecidableEq, Repr

/-- The reducer of `src/app/context.tsx`.  `now` is the value `Date.now()`
returns during the dispatch; only `ADD_TODO` reads it. -/
def reducer (state : AppState) (action : Action) (now : Nat) : AppState :=
  match action with
  | .increment => { state with count := state.count + 1 }
  | .decrement => { state with count := state.count - 1 }
  | .addTodo text =>
      { state with todos := state.todos ++ [{ id := freshId now, text := text }] }
  | .removeTodo id =>
      { state with todos := state.todos.filter (fun todo => todo.id ≠ id) }

end Context

namespace Zustand

/-- `increment: () => set((state) => ({ count: state.count + 1 }))`;
zustand merges the returned partial object into the state. -/
def increment (s : AppState) : AppState := { s with count := s.count + 1 }

/-- `decrement: () => set((state) => ({ count: state.count - 1 }))`. -/
def decrement (s : AppState) : AppState := { s with count := s.count - 1 }

/-- `addTodo: (text) => set((state) => ({ todos: [...state.todos,
{ id: Date.now().toString(), text }] }))`. -/
def addTodo (s : AppState) (text : String) (now : Nat) : AppState :=
  { s with todos := s.todos ++ [{ id := freshId now, text := text }] }

/-- `removeTodo: (id) => set((state) => ({ todos: state.todos.filter((todo)
=> todo.id !== id) }))`. -/
def removeTodo (s : AppState) (id : String) : AppState :=
  { s with todos := s.todos.filter (fun todo => todo.id ≠ id) }

end Zustand

namespace Mobx

/-- `increment = () => { this.count += 1 }`. -/
def increment (s : AppState) : AppState := { s with count := s.count + 1 }

/-- `decrement = () => { this.count -= 1 }`. -/
def decrement (s : AppState) : AppState := { s with count := s.count - 1 }

/-- `addTodo = (text) => { this.todos.push({ id: Date.now().toString(),
text }) }`. -/
def addTodo (s : AppState) (text : String) (now : Nat) : AppState :=
  { s with todos := s.todos ++ [{ id := freshId now, text := text }] }

/-- `removeTodo = (id) => { this.todos = this.todos.filter((todo) =>
todo.id !== id) }`. -/
def removeTodo (s : AppState) (id : String) : AppState :=
  { s with todos := s.todos.filter (fun todo => todo.id ≠ id) }

end Mobx

/-- Auxiliary: counter value reached by folding the context reducer over a
list of actions, each dispatched with some clock value (the clocks are
irrelevant for the counter). -/
def runContext (s : AppState) (ops : List (Context.Action × Nat)) : AppState :=
  ops.foldl (fun st p => Context.reducer st p.1 p.2) s

lemma runContext_cons (s : AppState) (p : Context.Action × Nat)
    (ops : List (Context.Action × Nat)) :
    runContext s (p :: ops) = runContext (Context.reducer s p.1 p.2) ops := rfl

lemma count_runContext (ops : List (Context.Action × Nat)) :
    ∀ s : AppState, (∀ p ∈ ops, p.1 = Context.Action.increment ∨
        p.1 = Context.Action.decrement) →
      (runContext s ops).count =
        s.count + (ops.countP (fun p => p.1 = Context.Action.increment) : Int)
          - (ops.countP (fun p => p.1 = Context.Action.decrement) : Int) := by
  induction ops with
  | nil => intro s _; simp [runContext]
  | cons p ops ih =>
    intro s h
    have hp := h p (List.mem_cons_self p ops)
    have hrest : ∀ q ∈ ops, q.1 = Context.Action.increment ∨
        q.1 = Context.Action.decrement :=
      fun q hq => h q (List.mem_cons_of_mem p hq)
    rw [runContext_cons, ih _ hrest]
    rcases hp with hp | hp <;>
      simp [Context.reducer, hp, List.countP_cons] <;> ring

/-- C1: For every finite sequence of increment() and decrement() calls
applied to the initial state with count = 0, the final count equals the
number of increment calls minus the number of decrement calls; decrement
may drive the count below zero (the counter is an unclamped integer), so a
negative result is produced, not rejected. -/
theorem counter_signed_sum (ops : List (Context.Action × Nat))
    (h : ∀ p ∈ ops, p.1 = Context.Action.increment ∨
        p.1 = Context.Action.decrement) :
    (runContext initialState ops).count =
      (ops.countP (fun p => p.1 = Context.Action.increment) : Int)
        - (ops.countP (fun p => p.1 = Context.Action.decrement) : Int) := by
  rw [count_runContext ops initialState h]
  simp [initialState]

/-- Witness for C1: two decrements and one increment from the initial state
give count `-1` = 1 − 2; in particular the count goes negative. -/
theorem counter_signed_sum_witness :
    (runContext initialState
        [(Context.Action.decrement, 0), (Context.Action.decrement, 1),
         (Context.Action.increment, 2)]).count = (1 : Int) - 2 :=
  counter_signed_sum _ (by decide)

lemma filter_ne_eq_self (l : List Todo) (id : String)
    (h : ∀ t ∈ l, t.id ≠ id) :
    l.filter (fun todo => todo.id ≠ id) = l := by
  rw [List.filter_eq_self]
  intro t ht
  simpa using h t ht

lemma removeTodo_no_match (s : AppState) (id : String)
    (h : ∀ t ∈ s.todos, t.id ≠ id) :
    Zustand.removeTodo s id = s := by
  cases s with
  | mk count todos =>
      simp only [Zustand.removeTodo]
      rw [filter_ne_eq_self todos id h]

/-- C2 counterexample: when the prior TodoList already holds a todo whose
id equals the fresh id assigned during addTodo (here `Date.now()` reads 5
and an id "5" pre-exists), removeTodo of the assigned id deletes the old
entry as well, so the pair of calls does not restore the original list. -/
theorem add_remove_roundtrip_cex :
    Context.reducer
        (Context.reducer ⟨0, [⟨"5", "a"⟩]⟩ (Context.Action.addTodo "b") 5)
        (Context.Action.removeTodo (freshId 5)) 5
      ≠ ⟨0, [⟨"5", "a"⟩]⟩ := by
  decide

/-- C2 amended: provided the id assigned by freshId does not already occur
in the TodoList, addTodo(t) followed immediately by removeTodo of that
assigned id leaves the state (in particular the TodoList, length and
contents) unchanged, in the context, zustand and MobX variants alike. -/
theorem add_remove_roundtrip (s : AppState) (text : String) (now now2 : Nat)
    (h : ∀ t ∈ s.todos, t.id ≠ freshId now) :
    Context.reducer (Context.reducer s (Context.Action.addTodo text) now)
        (Context.Action.removeTodo (freshId now)) now2 = s
    ∧ Zustand.removeTodo (Zustand.addTodo s text now) (freshId now) = s
    ∧ Mobx.removeTodo (Mobx.addTodo s text now) (freshId now) = s := by
  cases s with
  | mk count todos =>
      refine ⟨?_, ?_, ?_⟩ <;>
        · simp only [Context.reducer, Zustand.addTodo, Zustand.removeTodo,
            Mobx.addTodo, Mobx.removeTodo, List.filter_append]
          rw [filter_ne_eq_self todos (freshId now) h]
          simp

/-- C2 witness: from the empty initial state, adding "x" at clock 7 and
removing the assigned id restores the initial state. -/
theorem add_remove_roundtrip_witness :
    Context.reducer (Context.reducer initialState (Context.Action.addTodo "x") 7)
        (Context.Action.removeTodo (freshId 7)) 7 = initialState :=
  (add_remove_roundtrip initialState "x" 7 7 (by intro t ht; simp [initialState] at ht)).1

/-- C3: two ADD_TODO dispatches during the same millisecond (Date.now()
returns 1000 both times) assign the same id "1000" to both todos: the list
of generated ids is not duplicate-free, contradicting the required
session-scoped uniqueness of freshId. -/
theorem freshId_collision :
    ¬ ((Context.reducer
          (Context.reducer initialState (Context.Action.addTodo "a") 1000)
          (Context.Action.addTodo "b") 1000).todos.map Todo.id).Nodup := by
  decide

/-- C4 counterexample: with two todos sharing id "1", removeTodo("1")
matches an entry yet drops both, so the resulting length 0 is not
`length - 1 = 1`. -/
theorem remove_length_cex :
    ((Context.reducer ⟨0, [⟨"1", "a"⟩, ⟨"1", "b"⟩]⟩
        (Context.Action.removeTodo "1") 0).todos).length
      ≠ ([⟨"1", "a"⟩, ⟨"1", "b"⟩] : List Todo).length - 1 := by
  decide

lemma length_filter_not_countP {α : Type} (p : α → Bool) (l : List α) :
    (l.filter (fun a => !(p a))).length = l.length - l.countP p := by
  induction l with
  | nil => rfl
  | cons a l ih =>
    have hle := List.countP_le_length (p := p) (l := l)
    cases hpa : p a <;>
        simp [List.filter_cons, List.countP_cons, hpa, ih]
    omega

lemma length_filter_ne (l : List Todo) (id : String) :
    (l.filter (fun todo => todo.id ≠ id)).length
      = l.length - l.countP (fun todo => todo.id = id) := by
  simp only [ne_eq, decide_not]
  exact length_filter_not_countP (fun todo => decide (todo.id = id)) l

/-- C4 amended: removeTodo(id) shrinks the TodoList by the number of
entries whose id matches: exactly one less when exactly one entry matches
(in particular whenever ids are pairwise distinct), and the TodoList is
unchanged when no entry matches. -/
theorem remove_length (s : AppState) (id : String) (now : Nat) :
    ((Context.reducer s (Context.Action.removeTodo id) now).todos.length
        = s.todos.length - s.todos.countP (fun todo => todo.id = id))
    ∧ (s.todos.countP (fun todo => todo.id = id) = 1 →
        (Context.reducer s (Context.Action.removeTodo id) now).todos.length
          = s.todos.length - 1)
    ∧ ((∀ t ∈ s.todos, t.id ≠ id) →
        (Context.reducer s (Context.Action.removeTodo id) now).todos = s.todos) := by
  refine ⟨?_, ?_, ?_⟩
  · simp only [Context.reducer]
    exact length_filter_ne s.todos id
  · intro h1
    simp only [Context.reducer]
    rw [length_filter_ne s.todos id, h1]
  · intro h
    simp only [Context.reducer]
    exact filter_ne_eq_self s.todos id h

/-- C4 witness: on `[{id "1"}, {id "2"}]`, removing id "1" gives length
`2 - 1 = 1`, and removing the unmatched id "9" leaves the list unchanged. -/
theorem remove_length_witness :
    ((Context.reducer ⟨0, [⟨"1", "a"⟩, ⟨"2", "b"⟩]⟩
        (Context.Action.removeTodo "1") 0).todos.length = 2 - 1)
    ∧ ((Context.reducer ⟨0, [⟨"1", "a"⟩, ⟨"2", "b"⟩]⟩
        (Context.Action.removeTodo "9") 0).todos = [⟨"1", "a"⟩, ⟨"2", "b"⟩]) :=
  ⟨(remove_length ⟨0, [⟨"1", "a"⟩, ⟨"2", "b"⟩]⟩ "1" 0).2.1 (by decide),
   (remove_length ⟨0, [⟨"1", "a"⟩, ⟨"2", "b"⟩]⟩ "9" 0).2.2 (by decide)⟩

/-- C5: removeTodo with an id matching no todo is a no-op in the context
and zustand variants: the whole state (count and TodoList) is returned
unchanged, and the transition is total — no error value exists. -/
theorem remove_no_match_noop (s : AppState) (id : String) (now : Nat)
    (h : ∀ t ∈ s.todos, t.id ≠ id) :
    Context.reducer s (Context.Action.removeTodo id) now = s
    ∧ Zustand.removeTodo s id = s := by
  have hz := removeTodo_no_match s id h
  refine ⟨?_, hz⟩
  cases s with
  | mk count todos =>
      simp only [Context.reducer]
      rw [filter_ne_eq_self todos id h]

/-- C5 witness: removing id "9" from a one-todo state with id "1" returns
the state unchanged. -/
theorem remove_no_match_noop_witness :
    Context.reducer ⟨3, [⟨"1", "a"⟩]⟩ (Context.Action.removeTodo "9") 0
      = ⟨3, [⟨"1", "a"⟩]⟩ :=
  (remove_no_match_noop ⟨3, [⟨"1", "a"⟩]⟩ "9" 0 (by decide)).1

/-- C6: addTodo(text) appends exactly one entry `{id: freshId(now), text}`
at the tail: the length grows by one, the prior todos form the unchanged
prefix (so their relative order is preserved), the last entry is the new
todo, and the context, zustand and MobX variants all produce this list. -/
theorem add_appends (s : AppState) (text : String) (now : Nat) :
    ((Context.reducer s (Context.Action.addTodo text) now).todos.length
        = s.todos.length + 1)
    ∧ ((Context.reducer s (Context.Action.addTodo text) now).todos.take
        s.todos.length = s.todos)
    ∧ ((Context.reducer s (Context.Action.addTodo text) now).todos.getLast?
        = some ⟨freshId now, text⟩)
    ∧ Zustand.addTodo s text now = Context.reducer s (Context.Action.addTodo text) now
    ∧ Mobx.addTodo s text now = Context.reducer s (Context.Action.addTodo text) now := by
  refine ⟨?_, ?_, ?_, rfl, rfl⟩
  · simp [Context.reducer]
  · simp only [Context.reducer]
    exact List.take_left s.todos _
  · simp only [Context.reducer]
    exact List.getLast?_concat s.todos

/-- `String.prototype.trim`-style whitespace test used by the embedding of
the BaseScreen add handler: the ASCII whitespace characters plus NBSP and
the BOM/zero-width no-break space. -/
def isJsWhitespace (c : Char) : Bool :=
  c == ' ' || c == '\t' || c == '\n' || c == '\r' ||
  c == Char.ofNat 11 || c == Char.ofNat 12 ||
  c == Char.ofNat 160 || c == Char.ofNat 65279

/-- `newTodo.trim()`: strip leading and trailing whitespace. -/
def jsTrim (s : String) : String :=
  String.mk (((s.data.dropWhile isJsWhitespace).reverse.dropWhile
    isJsWhitespace).reverse)

/-- The add-button handler of `src/components/BaseScreen.tsx`:
`if (newTodo.trim()) { onAddTodo(newTodo); setNewTodo(""); }`.
The result is the argument handed to the store's addTodo, `none` when
addTodo is not invoked; a JavaScript string is truthy iff non-empty. -/
def handleAddPress (newTodo : String) : Option String :=
  if jsTrim newTodo ≠ "" then some newTodo else none

/-- C7 counterexample: on the input " hi " the handler does invoke addTodo
(the trimmed text "hi" is non-empty) but passes the original untrimmed
string " hi ", not the trimmed string. -/
theorem add_handler_trim_cex :
    handleAddPress " hi " = some " hi "
    ∧ jsTrim " hi " = "hi"
    ∧ (" hi " : String) ≠ "hi" := by
  refine ⟨?_, ?_, by decide⟩ <;> rfl

/-- C7 amended: the handler invokes the store's addTodo exactly when the
input is non-empty after trimming — empty and whitespace-only input never
reaches the store — but the text it passes is the original untrimmed
input string, not the trimmed one. -/
theorem add_handler_gate (s : String) :
    (jsTrim s = "" → handleAddPress s = none)
    ∧ (∀ t, handleAddPress s = some t → jsTrim s ≠ "" ∧ t = s) := by
  constructor
  · intro h
    simp [handleAddPress, h]
  · intro t ht
    by_cases h : jsTrim s = ""
    · simp [handleAddPress, h] at ht
    · refine ⟨h, ?_⟩
      simp [handleAddPress, h] at ht
      exact ht.symm

/-- C7 witness: a whitespace-only input is rejected, and " hi " is passed
through to the store untrimmed. -/
theorem add_handler_gate_witness :
    handleAddPress "  " = none ∧ (jsTrim " hi " ≠ "" ∧ " hi " = " hi ") :=
  ⟨(add_handler_gate "  ").1 (by rfl),
   (add_handler_gate " hi ").2 " hi " (by rfl)⟩

/-- C8 counterexample: the ADD_TODO transition reads the clock, which is
outside AppState: dispatching addTodo "a" on the same state with
`Date.now()` reading 1 versus 2 yields different states (different ids),
so the transition is not a function of AppState and the action alone. -/
theorem transition_frame_cex :
    Context.reducer initialState (Context.Action.addTodo "a") 1
      ≠ Context.reducer initialState (Context.Action.addTodo "a") 2 := by
  decide

/-- C8 amended: each transition changes only its own field — increment and
decrement leave todos unchanged, addTodo and removeTodo leave count
unchanged, in the context and zustand variants alike — and increment,
decrement and removeTodo are functions of the prior state alone, but
addTodo additionally depends on the Date.now() clock value used for the
fresh id. -/
theorem transition_frame (s : AppState) (text id : String) (now : Nat) :
    ((Context.reducer s Context.Action.increment now).todos = s.todos)
    ∧ ((Context.reducer s Context.Action.decrement now).todos = s.todos)
    ∧ ((Context.reducer s (Context.Action.addTodo text) now).count = s.count)
    ∧ ((Context.reducer s (Context.Action.removeTodo id) now).count = s.count)
    ∧ (Zustand.increment s).todos = s.todos
    ∧ (Zustand.decrement s).todos = s.todos
    ∧ (Zustand.addTodo s text now).count = s.count
    ∧ (Zustand.removeTodo s id).count = s.count
    ∧ (∀ now2 : Nat, Context.reducer s Context.Action.increment now
        = Context.reducer s Context.Action.increment now2)
    ∧ (∀ now2 : Nat, Context.reducer s Context.Action.decrement now
        = Context.reducer s Context.Action.decrement now2)
    ∧ (∀ now2 : Nat, Context.reducer s (Context.Action.removeTodo id) now
        = Context.reducer s (Context.Action.removeTodo id) now2) :=
  ⟨rfl, rfl, rfl, rfl, rfl, rfl, rfl, rfl,
   fun _ => rfl, fun _ => rfl, fun _ => rfl⟩

namespace Guide

/-- `counter: { value: number }` of the guide store
(`src/store/context/store.ts` in the Context API implementation guide). -/
structure CounterState where
  value : Int
deriving DecidableEq, Repr

/-- `todos: { items: string[] }` of the guide store. -/
structure TodosState where
  items : List String
deriving DecidableEq, Repr

/-- The guide store's state shape. -/
structure State where
  counter : CounterState
  todos : TodosState
deriving DecidableEq, Repr

/-- The guide store's action type: `ADD_TODO` carries the todo string,
`REMOVE_TODO` carries a positional index. -/
inductive Action where
  | increment
  | decrement
  | addTodo (payload : String)
  | removeTodo (payload : Nat)
deriving DecidableEq, Repr

/-- `items.filter((_, index) => index !== action.payload)`: keep the
elements whose position differs from `payload`. -/
def removeAtIndex (items : List String) (payload : Nat) : List String :=
  (items.enum.filter (fun p => p.1 ≠ payload)).map Prod.snd

/-- The guide store's reducer. -/
def reducer (state : State) (action : Action) : State :=
  match action with
  | .increment => { state with counter := ⟨state.counter.value + 1⟩ }
  | .decrement => { state with counter := ⟨state.counter.value - 1⟩ }
  | .addTodo payload =>
      { state with todos := ⟨state.todos.items ++ [payload]⟩ }
  | .removeTodo payload =>
      { state with todos := ⟨removeAtIndex state.todos.items payload⟩ }

lemma enumFrom_filter_ne_of_lt (l : List String) :
    ∀ j i : Nat, i < j →
      ((List.enumFrom j l).filter (fun p => p.1 ≠ i)).map Prod.snd = l := by
  induction l with
  | nil => intro j i _; rfl
  | cons a l ih =>
    intro j i hij
    have hne : j ≠ i := Nat.ne_of_gt hij
    simp only [List.enumFrom, List.filter_cons]
    rw [if_pos (by simpa using hne)]
    simp only [List.map_cons]
    rw [ih (j + 1) i (Nat.lt_succ_of_lt hij)]

lemma enumFrom_filter_ne_add (l : List String) :
    ∀ j k : Nat,
      ((List.enumFrom j l).filter (fun p => p.1 ≠ j + k)).map Prod.snd
        = l.eraseIdx k := by
  induction l with
  | nil => intro j k; rfl
  | cons a l ih =>
    intro j k
    cases k with
    | zero =>
        simp only [List.enumFrom, List.filter_cons, Nat.add_zero]
        rw [if_neg (by simp)]
        rw [enumFrom_filter_ne_of_lt l (j + 1) j (Nat.lt_succ_self j)]
        rfl
    | succ k =>
        have hne : decide (j ≠ j + (k + 1)) = true := by
          simp only [decide_eq_true_eq]
          omega
        simp only [List.enumFrom, List.filter_cons]
        rw [if_pos hne]
        simp only [List.map_cons]
        have : j + (k + 1) = (j + 1) + k := by omega
        rw [this, ih (j + 1) k]
        rfl

/-- The index-keyed removal is exactly `eraseIdx`. -/
lemma removeAtIndex_eq_eraseIdx (items : List String) (i : Nat) :
    removeAtIndex items i = items.eraseIdx i := by
  have h := enumFrom_filter_ne_add items 0 i
  rw [Nat.zero_add] at h
  exact h

end Guide

/-- C9: in the guide variant, REMOVE_TODO with payload i removes exactly
the element at position i of the items list — the prefix before i and the
suffix after i survive in order — and leaves the list unchanged when i is
out of range; the context variant (like zustand and MobX, whose removals
are proved equal to it in the C10 theorem) instead keeps exactly the
todos whose stable id differs from the given id, independent of position. -/
theorem remove_by_index (s : Guide.State) (i : Nat) :
    ((i < s.todos.items.length →
        (Guide.reducer s (Guide.Action.removeTodo i)).todos.items
          = s.todos.items.take i ++ s.todos.items.drop (i + 1))
      ∧ (s.todos.items.length ≤ i →
          Guide.reducer s (Guide.Action.removeTodo i) = s))
    ∧ (∀ (a : AppState) (id : String) (t : Todo) (now : Nat),
        t ∈ (Context.reducer a (Context.Action.removeTodo id) now).todos
          ↔ t ∈ a.todos ∧ t.id ≠ id) := by
  constructor
  · constructor
    · intro _
      simp only [Guide.reducer, Guide.removeAtIndex_eq_eraseIdx]
      exact List.eraseIdx_eq_take_drop_succ s.todos.items i
    · intro h
      cases s with
      | mk counter todos =>
          cases todos with
          | mk items =>
              simp only [Guide.reducer, Guide.removeAtIndex_eq_eraseIdx]
              rw [List.eraseIdx_eq_self.mpr h]
  · intro a id t now
    simp [Context.reducer, List.mem_filter]

/-- C9 witness: removing index 1 from ["a","b","c"] drops exactly "b";
removing index 5 leaves the list unchanged; and in the context variant the
todo with id "2" is gone after removeTodo "2" while the todo with id "1"
survives. -/
theorem remove_by_index_witness :
    ((Guide.reducer ⟨⟨0⟩, ⟨["a", "b", "c"]⟩⟩
        (Guide.Action.removeTodo 1)).todos.items
      = ["a", "b", "c"].take 1 ++ ["a", "b", "c"].drop 2)
    ∧ (Guide.reducer ⟨⟨0⟩, ⟨["a", "b", "c"]⟩⟩ (Guide.Action.removeTodo 5)
        = ⟨⟨0⟩, ⟨["a", "b", "c"]⟩⟩)
    ∧ ((⟨"1", "a"⟩ : Todo) ∈ (Context.reducer ⟨0, [⟨"1", "a"⟩, ⟨"2", "b"⟩]⟩
        (Context.Action.removeTodo "2") 0).todos
      ↔ (⟨"1", "a"⟩ : Todo) ∈ [(⟨"1", "a"⟩ : Todo), ⟨"2", "b"⟩]
          ∧ ("1" : String) ≠ "2") :=
  ⟨(remove_by_index ⟨⟨0⟩, ⟨["a", "b", "c"]⟩⟩ 1).1.1 (by decide),
   (remove_by_index ⟨⟨0⟩, ⟨["a", "b", "c"]⟩⟩ 5).1.2 (by decide),
   (remove_by_index ⟨⟨0⟩, ⟨["a", "b", "c"]⟩⟩ 5).2
     ⟨0, [⟨"1", "a"⟩, ⟨"2", "b"⟩]⟩ "2" ⟨"1", "a"⟩ 0⟩

/-- C10: in the id-keyed variants removeTodo(id) removes every todo whose
id equals the given id, not at most one: the resulting length is the prior
length minus the number of matching entries, the result is a sublist of
the prior list (relative order of survivors preserved), a todo survives
iff it was present and its id differs, and the MobX and context removals
coincide with the zustand one. -/
theorem remove_all_matching (s : AppState) (id : String) :
    ((Zustand.removeTodo s id).todos.length
        = s.todos.length - s.todos.countP (fun t => t.id = id))
    ∧ (Zustand.removeTodo s id).todos.Sublist s.todos
    ∧ (∀ t : Todo, t ∈ (Zustand.removeTodo s id).todos
        ↔ t ∈ s.todos ∧ t.id ≠ id)
    ∧ Mobx.removeTodo s id = Zustand.removeTodo s id
    ∧ (∀ now : Nat, Context.reducer s (Context.Action.removeTodo id) now
        = Zustand.removeTodo s id) := by
  refine ⟨?_, ?_, ?_, rfl, fun _ => rfl⟩
  · simp only [Zustand.removeTodo]
    exact length_filter_ne s.todos id
  · simp only [Zustand.removeTodo]
    exact List.filter_sublist s.todos
  · intro t
    simp [Zustand.removeTodo, List.mem_filter]
